import Mathlib

/-!
Shallow embedding of the Sonarcloud-demo repository: `src/agent/app.py`
(a small Flask application with four routes — GET /user, POST /run,
GET /read, POST /config — and a bootstrap block guarded by `__main__`)
and `src/agent/test_code.py` (a standalone script whose `process_data`
iterates two lists by the first list's indices).

External systems the handlers call into (the SQLite engine, the shell,
the filesystem, the YAML loader) are embedded only as far as the claims
need them; where a handler's outcome depends on such a system, the
handler is parameterised over it, and a small concrete model of the
system is supplied for concrete evaluations.
-/

namespace App

/-- A row of the `users` table: `(id, username)`, both TEXT columns. -/
abbrev Row := String × String

/-- JSON values, modelling the bodies Flask's `jsonify` produces
(structurally, not as serialized text). -/
inductive Json where
  | null
  | bool (b : Bool)
  | num (n : Int)
  | str (s : String)
  | arr (xs : List Json)
  | obj (fields : List (String × Json))

/-- The single-quote character that delimits SQL string literals. -/
def squote : Char := '\''

/-- Strip an expected prefix from a character list: `some rest` when the
second list starts with the first, `none` otherwise. -/
def stripPrefixChars : List Char → List Char → Option (List Char)
  | [], s => some s
  | _ :: _, [] => none
  | p :: ps, c :: cs => if c = p then stripPrefixChars ps cs else none

/-- Body of a SQLite single-quoted string literal, read after its opening
quote: a doubled quote stands for one literal quote character, a single
quote closes the literal. Returns `(content, remainder after the closing
quote)`, or `none` when the literal is unterminated. -/
def parseLitBody : List Char → Option (List Char × List Char)
  | [] => none
  | [c] => if c = squote then some ([], []) else none
  | c :: c2 :: rest =>
    if c = squote then
      if c2 = squote then
        (parseLitBody rest).map (fun p => (squote :: p.1, p.2))
      else
        some ([], c2 :: rest)
    else
      (parseLitBody (c2 :: rest)).map (fun p => (c :: p.1, p.2))

/-- The fixed text the `/user` handler places in front of the interpolated
`id` value (`src/agent/app.py` line 25). -/
def sqlSelectPrefix : String := "SELECT id, username FROM users WHERE id = "

/-- The query string the `/user` handler builds: direct interpolation of
`user_id` between single quotes after the SELECT prefix, exactly as the
f-string on line 25 of `src/agent/app.py` does. -/
def buildQuery (user_id : String) : String :=
  "SELECT id, username FROM users WHERE id = '" ++ user_id ++ "'"

/-- The rows of `store` whose `id` column equals `uid`: the semantics of
the `WHERE id = <literal>` filter of the SELECT statement. -/
def selectedRows (store : List Row) (uid : String) : List Row :=
  store.filter (fun r => r.1 == uid)

/-- Execution of one statement through `sqlite3`, for the statement shape
the `/user` handler can issue: the SELECT prefix followed by a
single-quoted literal. When the text after the prefix is exactly one
well-formed literal, the result is the rows matching it; any other text
(an unterminated literal from an odd number of quotes in `id`, or SQL
that continues past the literal) is mapped to a fault. `Cursor.execute`
runs a single statement, and every statement reaching it here begins
with SELECT, so the store is returned unchanged in every case. -/
def sqliteExec (store : List Row) (query : String) :
    Except String (List Row) × List Row :=
  (match stripPrefixChars sqlSelectPrefix.data query.data with
   | none => .error "SQL fault: statement outside the modelled fragment"
   | some [] => .error "SQL fault: incomplete input"
   | some (c :: body) =>
     if c = squote then
       match parseLitBody body with
       | none => .error "SQL fault: unterminated string literal"
       | some (lit, []) => .ok (selectedRows store (String.mk lit))
       | some (_, _ :: _) => .error "SQL fault: text after the string literal"
     else .error "SQL fault: syntax error after WHERE id ="
   , store)

/-- The response body `jsonify({"rows": rows})` builds: a JSON object with
one field `rows`, a list of `[id, username]` pairs. -/
def rowsJson (rows : List Row) : Json :=
  .obj [("rows", .arr (rows.map (fun r => .arr [.str r.1, .str r.2])))]

/-- What one call of the `/user` handler did: the query it handed to
`conn.execute` (if execution was reached), its HTTP response or the
unhandled fault that propagated, whether `conn.close()` ran, and the
store after the request. -/
structure GetUserResult where
  executedQuery : Option String
  response : Except String (Json × Nat)
  connClosed : Bool
  storeAfter : List Row

/-- The GET /user handler (`src/agent/app.py` lines 22-32):
`user_id := request.args.get("id", "")`; the query is built by direct
interpolation; the connection is opened, the query executed, and on the
success path the rows are returned as JSON with status 200 while an
execution fault propagates unhandled; the `finally` clause closes the
connection on both exit paths. -/
def get_user (store : List Row) (idArg : Option String) : GetUserResult :=
  let user_id := idArg.getD ""
  let query := buildQuery user_id
  let res := sqliteExec store query
  match res.1 with
  | .ok rows =>
    { executedQuery := some query
      response := .ok (rowsJson rows, 200)
      connClosed := true
      storeAfter := res.2 }
  | .error e =>
    { executedQuery := some query
      response := .error e
      connClosed := true
      storeAfter := res.2 }

/-- The outcome of a spawned shell command: the bytes it wrote to its
standard output and standard error, and its return code (the triple the
handler reads off `Popen`/`communicate`). -/
structure ShellOutcome where
  out : String
  err : String
  returncode : Int

/-- Digits of a decimal number, accumulated left to right; `none` when a
non-digit character appears. -/
def digitsVal : Nat → List Char → Option Nat
  | acc, [] => some acc
  | acc, c :: rest =>
    if c.isDigit then digitsVal (acc * 10 + (c.toNat - 48)) rest else none

/-- Modelled from the spec: the shell is not part of this repository, so
its behaviour on the two command forms the spec's testable properties
exercise is taken from the spec — `echo <text>` writes the text and a
newline to standard output and exits 0; `exit <n>` exits with code `n`.
Any other command line is given a generic command-not-found outcome. -/
def shellModel (cmd : String) : ShellOutcome :=
  match stripPrefixChars "echo ".data cmd.data with
  | some rest => { out := String.mk rest ++ "\n", err := "", returncode := 0 }
  | none =>
    match stripPrefixChars "exit ".data cmd.data with
    | some rest =>
      { out := "", err := "", returncode := ((digitsVal 0 rest).getD 2 : Nat) }
    | none =>
      { out := ""
        err := "sh: " ++ cmd ++ ": command not found\n"
        returncode := 127 }

/-- The POST /run handler (`src/agent/app.py` lines 35-42):
`cmd := request.json.get("cmd", "echo Hello")` is passed to the shell
(`sh` abstracts the spawned shell); a non-zero return code yields the
standard-error text with status 500, otherwise the standard-output text
is returned (Flask's default status 200). The handler performs no store
operation; effects the spawned process itself may have on the backing
file are outside this embedding. -/
def run (sh : String → ShellOutcome) (store : List Row) (cmdArg : Option String) :
    (String × Nat) × List Row :=
  let cmd := cmdArg.getD "echo Hello"
  let p := sh cmd
  if p.returncode ≠ 0 then ((p.err, 500), store) else ((p.out, 200), store)

/-- A filesystem as the model sees it: named files and their text. -/
abbrev FileSys := List (String × String)

/-- The textual message of the fault Python raises for a missing file
(`str` of the `FileNotFoundError` that `open` raises): the platform's
errno text followed by the quoted filename. -/
def fileNotFoundMsg (name : String) : String :=
  "[Errno 2] No such file or directory: '" ++ name ++ "'"

/-- Opening and reading a named file as UTF-8 text against a concrete
filesystem: the file's text when it exists, otherwise the
missing-file fault with its message. -/
def openRead (fs : FileSys) (name : String) : Except String String :=
  match fs.lookup name with
  | some contents => .ok contents
  | none => .error (fileNotFoundMsg name)

/-- The GET /read handler (`src/agent/app.py` lines 45-53):
`filename := request.args.get("file", "README.md")`; the `try` block
returns the file's text (status 200), and `except Exception as e`
catches any fault of opening, reading or decoding and returns `str(e)`
with status 404. `readImpl` abstracts the filesystem read, whose faults
are values carrying their textual message. -/
def read_file (readImpl : String → Except String String) (store : List Row)
    (fileArg : Option String) : (String × Nat) × List Row :=
  let filename := fileArg.getD "README.md"
  (match readImpl filename with
   | .ok text => (text, 200)
   | .error e => (e, 404)
   , store)

/-- The POST /config handler (`src/agent/app.py` lines 56-60): the body,
already decoded as UTF-8, is handed to `yaml.load` (`loader` abstracts
it, its faults carrying their message); a successful load is re-encoded
by `jsonify` (status 200) and a loader fault propagates out of the
handler unhandled — the handler contains no try/except. -/
def load_config (loader : String → Except String Json) (store : List Row)
    (body : String) : Except String (Json × Nat) × List Row :=
  (match loader body with
   | .ok cfg => .ok (cfg, 200)
   | .error e => .error e
   , store)

/-- The two seed rows the bootstrap block inserts
(`src/agent/app.py` line 66). -/
def seedRows : List Row := [("1", "alice"), ("2", "bob")]

/-- The bootstrap block (`src/agent/app.py` lines 62-69): when the store
file is absent (`none`), it is created with the `users` table holding
exactly the two seed rows; when the file is present, the block is
skipped and the store is untouched. -/
def bootstrap : Option (List Row) → Option (List Row)
  | none => some seedRows
  | some s => some s

/-- The loop of `process_data` (`src/agent/test_code.py` lines 2-7) from
index `i` on: while `i < len(list_a)`, the line for `list_a[i]` and
`list_b[i]` is printed; when `list_b[i]` is out of range an IndexError
is raised there. Returns the printed lines and `some i` for the index
at which the fault was raised (`none` when the loop completed). -/
def processAux {A B : Type} [ToString A] [ToString B]
    (list_a : List A) (list_b : List B) (i : Nat) : List String × Option Nat :=
  if h : i < list_a.length then
    match list_b[i]? with
    | some item_b =>
      let p := processAux list_a list_b (i + 1)
      (("Index " ++ toString i ++ ": " ++ toString (list_a.get ⟨i, h⟩)
          ++ " - " ++ toString item_b) :: p.1, p.2)
    | none => ([], some i)
  else ([], none)
termination_by list_a.length - i

/-- `process_data` of `src/agent/test_code.py`: iterate the indices of
`list_a`, printing one line per index from both lists. -/
def process_data {A B : Type} [ToString A] [ToString B]
    (list_a : List A) (list_b : List B) : List String × Option Nat :=
  processAux list_a list_b 0

/-! Helper lemmas about the handlers, shared by the claim theorems. -/

/-- The `/user` handler always hands `conn.execute` exactly the directly
interpolated query string, whatever the execution outcome. -/
theorem get_user_executedQuery (store : List Row) (idArg : Option String) :
    (get_user store idArg).executedQuery = some (buildQuery (idArg.getD "")) := by
  unfold get_user
  dsimp only
  split <;> rfl

/-- The `finally` clause closes the connection on both exit paths of the
`/user` handler. -/
theorem get_user_connClosed (store : List Row) (idArg : Option String) :
    (get_user store idArg).connClosed = true := by
  unfold get_user
  dsimp only
  split <;> rfl

/-- The `/user` handler leaves the store unchanged: its one statement is a
SELECT. -/
theorem get_user_storeAfter (store : List Row) (idArg : Option String) :
    (get_user store idArg).storeAfter = store := by
  unfold get_user
  dsimp only
  split <;> rfl

/-- When `list_b` is shorter than `list_a`, the loop entered at any index
`i ≤ len list_b` raises its IndexError exactly at index `len list_b`.
Stated for every remaining distance `k = len list_b - i` to descend on. -/
theorem processAux_fault_of_lt {A B : Type} [ToString A] [ToString B]
    (a : List A) (b : List B) (hlen : b.length < a.length) :
    ∀ k i, b.length - i = k → i ≤ b.length →
      (processAux a b i).2 = some b.length := by
  intro k
  induction k with
  | zero =>
    intro i hk hi
    have hib : i = b.length := by omega
    subst hib
    unfold processAux
    rw [dif_pos hlen]
    have hnone : b[b.length]? = none := by
      simp [List.getElem?_eq_none]
    rw [hnone]
  | succ k ih =>
    intro i hk hi
    have hia : i < a.length := by omega
    have hib : i < b.length := by omega
    unfold processAux
    rw [dif_pos hia]
    rw [List.getElem?_eq_getElem hib]
    exact ih (i + 1) (by omega) (by omega)

/-! The claim theorems. -/

/-- C1: for every `id` value containing a single quote, the GET /user
handler still builds the SQL string by direct interpolation of `id` into
the SELECT statement and hands exactly that string to query execution —
the handler reaches execution and does not fail before it. -/
theorem C1_injection_path_always_executed (store : List Row) (id : String)
    (h : squote ∈ id.data) :
    (get_user store (some id)).executedQuery = some (buildQuery id) :=
  get_user_executedQuery store (some id)

/-- Witness for C1 at the concrete id `"'"`, which contains a single
quote: the executed query is the direct interpolation. -/
theorem C1_witness :
    squote ∈ ("'" : String).data ∧
    (get_user seedRows (some "'")).executedQuery = some (buildQuery "'") :=
  ⟨by decide, C1_injection_path_always_executed seedRows "'" (by decide)⟩

/-- C2: POST /run returns the standard-output text with status 200 iff the
command's return code is 0, and the standard-error text with status 500
iff the return code is non-zero; concretely, cmd "echo Hello" yields
status 200 with body "Hello\n" and cmd "exit 3" yields status 500. -/
theorem C2_run_status_reflects_returncode (sh : String → ShellOutcome)
    (store : List Row) (cmd : String) :
    ((run sh store (some cmd)).1 = ((sh cmd).out, 200) ↔
      (sh cmd).returncode = 0) ∧
    ((run sh store (some cmd)).1 = ((sh cmd).err, 500) ↔
      (sh cmd).returncode ≠ 0) ∧
    (run shellModel store (some "echo Hello")).1 = ("Hello\n", 200) ∧
    ((run shellModel store (some "exit 3")).1).2 = 500 := by
  refine ⟨?_, ?_, rfl, rfl⟩ <;>
    by_cases h : (sh cmd).returncode = 0 <;> simp [run, h]

/-- C3: on the bootstrapped two-row store, GET /user with id "1" responds
with status 200 and a JSON object whose `rows` field is the list of
matched [id, username] pairs, containing the pair ["1", "alice"]. -/
theorem C3_user_id_1_returns_alice :
    (get_user seedRows (some "1")).response =
      .ok (rowsJson (selectedRows seedRows "1"), 200) ∧
    ("1", "alice") ∈ selectedRows seedRows "1" ∧
    rowsJson (selectedRows seedRows "1") =
      Json.obj [("rows", Json.arr [Json.arr [Json.str "1", Json.str "alice"]])] :=
  ⟨rfl, by decide, rfl⟩

/-- C4: GET /read either returns the named file's text with status 200,
or, whenever the read faults, catches the fault and returns its textual
message with status 404; for a file absent from the filesystem the
returned message is the missing-file message, which is non-empty. -/
theorem C4_read_returns_contents_or_fault_message
    (readImpl : String → Except String String) (store : List Row)
    (fileArg : Option String) :
    (∀ text, readImpl (fileArg.getD "README.md") = .ok text →
      (read_file readImpl store fileArg).1 = (text, 200)) ∧
    (∀ msg, readImpl (fileArg.getD "README.md") = .error msg →
      (read_file readImpl store fileArg).1 = (msg, 404)) ∧
    (∀ (fs : FileSys) (name : String), fs.lookup name = none →
      (read_file (openRead fs) store (some name)).1 =
        (fileNotFoundMsg name, 404) ∧
      fileNotFoundMsg name ≠ "") := by
  refine ⟨?_, ?_, ?_⟩
  · intro text h
    simp [read_file, h]
  · intro msg h
    simp [read_file, h]
  · intro fs name h
    refine ⟨by simp [read_file, openRead, h], ?_⟩
    intro hc
    have h1 : (fileNotFoundMsg name).data.head? = some '[' := rfl
    rw [hc] at h1
    exact absurd h1 (by decide)

/-- C5: POST /config returns the re-encoding of the successfully
deserialized document with status 200, and a deserialization fault
propagates out of the handler unhandled. -/
theorem C5_config_reflects_loader_outcome
    (loader : String → Except String Json) (store : List Row) (body : String) :
    (∀ cfg, loader body = .ok cfg →
      (load_config loader store body).1 = .ok (cfg, 200)) ∧
    (∀ msg, loader body = .error msg →
      (load_config loader store body).1 = .error msg) := by
  constructor <;> intro x h <;> simp [load_config, h]

/-- C6: when the store file is absent, bootstrap creates the users table
with exactly the rows ('1','alice') and ('2','bob'); when it is present,
bootstrap changes nothing; bootstrap is idempotent. -/
theorem C6_bootstrap_seeds_absent_store_and_is_idempotent :
    bootstrap none = some [("1", "alice"), ("2", "bob")] ∧
    (∀ s : List Row, bootstrap (some s) = some s) ∧
    (∀ w, bootstrap (bootstrap w) = bootstrap w) := by
  refine ⟨rfl, fun s => rfl, fun w => ?_⟩
  cases w <;> rfl

/-- C7: the database connection the GET /user handler acquires is closed
on every exit path of the handler, the path where query execution raised
a fault included. -/
theorem C7_user_connection_closed_on_every_exit (store : List Row)
    (idArg : Option String) :
    (get_user store idArg).connClosed = true :=
  get_user_connClosed store idArg

/-- C8: no route mutates or destroys the user records — after any request
to GET /user, POST /run, GET /read or POST /config the users table is
what it was before. -/
theorem C8_no_route_mutates_users_table (store : List Row)
    (idArg cmdArg fileArg : Option String) (sh : String → ShellOutcome)
    (readImpl : String → Except String String)
    (loader : String → Except String Json) (body : String) :
    (get_user store idArg).storeAfter = store ∧
    (run sh store cmdArg).2 = store ∧
    (read_file readImpl store fileArg).2 = store ∧
    (load_config loader store body).2 = store := by
  refine ⟨get_user_storeAfter store idArg, ?_, rfl, rfl⟩
  unfold run
  dsimp only
  split <;> rfl

/-- C9: whenever the first list is strictly longer than the second,
`process_data` raises an index fault exactly upon reaching index
`len list_b`. -/
theorem C9_process_data_faults_at_second_length {A B : Type}
    [ToString A] [ToString B] (list_a : List A) (list_b : List B)
    (h : list_b.length < list_a.length) :
    (process_data list_a list_b).2 = some list_b.length :=
  processAux_fault_of_lt list_a list_b h list_b.length 0 (by omega)
    (Nat.zero_le _)

/-- Witness for C9 at the script's own top-level call
`process_data([1, 2], ["apple"])`: the index fault is raised at index 1,
the length of the second list. -/
theorem C9_witness :
    (["apple"] : List String).length < ([1, 2] : List Nat).length ∧
    (process_data ([1, 2] : List Nat) (["apple"] : List String)).2 = some 1 :=
  ⟨by decide,
    C9_process_data_faults_at_second_length [1, 2] ["apple"] (by decide)⟩

/-- C10: with no `id` query parameter the GET /user handler uses the
empty string, executes the query `SELECT id, username FROM users WHERE
id = ''`, which matches neither seed row, and responds with status 200
and body rows = []. -/
theorem C10_user_missing_id_defaults_to_empty_and_matches_nothing :
    (get_user seedRows none).executedQuery = some (buildQuery "") ∧
    buildQuery "" = sqlSelectPrefix ++ "''" ∧
    (get_user seedRows none).response = .ok (rowsJson [], 200) ∧
    rowsJson [] = Json.obj [("rows", Json.arr [])] :=
  ⟨rfl, rfl, rfl, rfl⟩

end App
